import Mathlib

/-!
# Verification of the pytesira DSP client library

A shallow embedding, in Lean 4, of the parts of the `pytesira` library that
its specification talks about: the TTP response model, the receive loop and
command-serializer worker of `pytesira/dsp.py`, the block-map cache loading
and block discovery, the `SourceSelector` block, the level/mute block bases,
and the `Channel` utility object.

Python strings are embedded as `List Char`, with the Python string
operations used by the source (`split`, `strip`, `replace`, `in`, `sorted`)
re-implemented faithfully below, using fuel-based structural recursion so
that every definition evaluates inside the kernel.

The files `pytesira/block/block.py`, `pytesira/util/ttp_response.py` and the
transports are not part of the source tree that was provided; the few
definitions that depend on them are modelled from the specification and say
so in their doc comments.
-/

namespace Pytesira

/-- Embed a Lean string literal as the `List Char` representation of a
Python string. -/
def pys (s : String) : List Char := s.data

/-- Python `str.strip` whitespace class (ASCII fragment). -/
def isSpaceChar (c : Char) : Bool :=
  c = ' ' || c = '\t' || c = '\n' || c = '\r' || c = '\x0b' || c = '\x0c'

/-- Python `s.strip()`: drop leading and trailing whitespace. -/
def pyStrip (s : List Char) : List Char :=
  ((s.dropWhile isSpaceChar).reverse.dropWhile isSpaceChar).reverse

/-- Helper for `pySplit`; the fuel always suffices because every step
consumes at least one character of `s`. -/
def pySplitAux (sep : List Char) : Nat → List Char → List Char → List (List Char)
  | 0, acc, s => [acc.reverse ++ s]
  | fuel+1, acc, s =>
    if sep.isPrefixOf s && !sep.isEmpty then
      acc.reverse :: pySplitAux sep fuel [] (s.drop sep.length)
    else
      match s with
      | [] => [acc.reverse]
      | c :: rest => pySplitAux sep fuel (c :: acc) rest

/-- Python `s.split(sep)` with an explicit non-empty separator: empty pieces
are kept, the result is never empty. -/
def pySplit (s sep : List Char) : List (List Char) :=
  pySplitAux sep (s.length + 1) [] s

/-- Python `sub in s` substring containment. -/
def pyContains (s sub : List Char) : Bool :=
  match s with
  | [] => sub.isEmpty
  | _ :: rest => sub.isPrefixOf s || pyContains rest sub

/-- Helper for `pyReplace`; fuel-based for kernel evaluation. -/
def pyReplaceAux (old new : List Char) : Nat → List Char → List Char
  | 0, s => s
  | fuel+1, s =>
    if old.isPrefixOf s && !old.isEmpty then
      new ++ pyReplaceAux old new fuel (s.drop old.length)
    else
      match s with
      | [] => []
      | c :: rest => c :: pyReplaceAux old new fuel rest

/-- Python `s.replace(old, new)`: every non-overlapping occurrence,
left to right. -/
def pyReplace (s old new : List Char) : List Char :=
  pyReplaceAux old new (s.length + 1) s

/-- Lexicographic order on code points, as Python compares strings. -/
def pyStrLe : List Char → List Char → Bool
  | [], _ => true
  | _ :: _, [] => false
  | a :: as, b :: bs => if a = b then pyStrLe as bs else decide (a.toNat ≤ b.toNat)

/-- Insert into a sorted list, keeping earlier elements first on ties. -/
def pyInsertSorted (x : List Char) : List (List Char) → List (List Char)
  | [] => [x]
  | y :: ys => if pyStrLe x y then x :: y :: ys else y :: pyInsertSorted x ys

/-- Python `sorted` on a list of strings (ascending, stable). -/
def pySorted : List (List Char) → List (List Char)
  | [] => []
  | x :: xs => pyInsertSorted x (pySorted xs)

/-- Decimal digits of a natural number; fuel-based for kernel evaluation. -/
def natCharsAux : Nat → Nat → List Char
  | 0, _ => []
  | fuel+1, n =>
    if n < 10 then [Char.ofNat (48 + n)]
    else natCharsAux fuel (n / 10) ++ [Char.ofNat (48 + n % 10)]

/-- Python `str(n)` for a non-negative integer. -/
def natChars (n : Nat) : List Char := natCharsAux (n + 1) n

/-- Python `str(i)` for an integer. -/
def intChars (i : Int) : List Char :=
  if i < 0 then '-' :: natChars i.natAbs else natChars i.natAbs

/-! ## TTP responses

`pytesira/util/ttp_response.py` is not in the provided source tree; the
response data model below is modelled from the spec (section 3): a parsed
line is *Ok* (`+OK`), *Error* (`-ERR`) or *Publish* (`!`), and carries a
decoded value; a publish additionally carries a publish token, a
subscription-type tag, and an optional channel index. -/

/-- Modelled from the spec: the three response kinds produced by the parser
in the missing `pytesira/util/ttp_response.py` (the names `CMD_OK`,
`CMD_ERROR`, `SUBSCRIPTION` are the ones `dsp.py` imports). -/
inductive TTPResponseType
  | CMD_OK
  | CMD_ERROR
  | SUBSCRIPTION
deriving DecidableEq

/-- Modelled from the spec: the decoded value payload of a response.
Scalars are numbers, booleans or strings; floats are carried by their
repr text, which is all the claims need of them. -/
inductive TTPValue
  | vStr (s : List Char)
  | vInt (i : Int)
  | vBool (b : Bool)
  | vFloat (text : List Char)
  | vNone
deriving DecidableEq

/-- Modelled from the spec: a parsed TTP response as `dsp.py` consumes it:
a kind, a decoded value, and — for publishes — the publish token, the
subscription type and the channel index. -/
structure TTPResponse where
  rtype : TTPResponseType
  value : TTPValue := .vNone
  publish_token : List Char := []
  subscription_type : List Char := []
  subscription_channel_id : Int := 0
deriving DecidableEq

/-- Python `bool(x)` on a decoded value. -/
def pyBoolCoe : TTPValue → Bool
  | .vStr s => !s.isEmpty
  | .vInt i => i != 0
  | .vBool b => b
  | .vFloat t => !t.isEmpty
  | .vNone => false

/-- Python `int(x)` on a decoded value; `none` models the cases in which
`int()` raises (not exercised by any claim). -/
def pyIntCoe : TTPValue → Option Int
  | .vInt i => some i
  | .vBool b => some (if b then 1 else 0)
  | _ => none

/-- Python `float(x)` on a decoded value, kept as repr text; `none` models
the cases in which `float()` raises. -/
def pyFloatCoe : TTPValue → Option (List Char)
  | .vFloat t => some t
  | .vInt i => some (intChars i)
  | _ => none

/-- The message string of a response, as the string operations in
`DSP.__getDSPBlockMap` read `.value`; a parsed Error always carries its
message string, so the other constructors are unreachable there. -/
def responseMsg : TTPValue → List Char
  | .vStr s => s
  | _ => []

/-! ## Receive loop and subscription routing (`DSP.__rx_loop`)

The subscription registry `DSP.__subscriptions` is a Python dict from
publish token to a subscriber record (a 4-tuple whose first component is
the owning block handle).  We model the dict as an association list; the
stored value is an `Option Subscriber` so that the source's
`if not subscriber` branch (a present but falsy entry) is representable
separately from a missing key (which makes `self.__subscriptions[token]`
raise `KeyError`). -/

/-- A block handle as the subscription router sees it (only its identity
matters to the claims). -/
structure Subscriber where
  name : List Char
deriving DecidableEq

/-- The subscription registry: publish token to registered record. -/
abbrev SubscriptionRegistry := List (List Char × Option Subscriber)

/-- One invocation of a block's `subscription_callback`. -/
structure Delivery where
  target : Subscriber
  response : TTPResponse
deriving DecidableEq

/-- Outcome of `DSP.__rx_loop` handling one decoded inbound line
(dsp.py lines 484-502). -/
inductive RxOutcome
  | routed (d : Delivery)
  | droppedInvalid
  | mailboxWrite (r : TTPResponse)
  | keyError (token : List Char)
deriving DecidableEq

/-- The body of `DSP.__rx_loop` for one decoded response: a subscription
is looked up by token in `self.__subscriptions` — a missing key raises
`KeyError`, a falsy entry is logged and dropped, a registered subscriber
receives `subscription_callback` — and every other response is written to
`self.__rx_cmd_mailbox`. -/
def rxHandleLine (subs : SubscriptionRegistry) (decoded : TTPResponse) : RxOutcome :=
  if decoded.rtype = .SUBSCRIPTION then
    match subs.lookup decoded.publish_token with
    | none => .keyError decoded.publish_token
    | some none => .droppedInvalid
    | some (some s) => .routed ⟨s, decoded⟩
  else .mailboxWrite decoded

/-- Why a command send-and-wait did not return a reply: no reply line
within the timeout, or the receive loop died of a `KeyError`. -/
inductive CmdFailure
  | timeout
  | rxKeyError (token : List Char)
deriving DecidableEq

/-- `DSP.__transport_send_and_wait` after the send: inbound decoded lines
are handled by the receive loop one at a time; subscription publishes are
routed (or dropped) without ending the wait, and the first line written to
the command mailbox is returned together with the rest of the stream and
the subscription deliveries made while waiting.  An exhausted stream is
the 3-second timeout; the `Exception` it raises is the `.error` case. -/
def transportSendAndWait (subs : SubscriptionRegistry) :
    List TTPResponse → Except CmdFailure (TTPResponse × List TTPResponse × List Delivery)
  | [] => .error .timeout
  | d :: rest =>
    match rxHandleLine subs d with
    | .mailboxWrite r => .ok (r, rest, [])
    | .routed dv =>
      match transportSendAndWait subs rest with
      | .ok (r, rem, ds) => .ok (r, rem, dv :: ds)
      | .error e => .error e
    | .droppedInvalid => transportSendAndWait subs rest
    | .keyError t => .error (.rxKeyError t)

/-- Observable transport-level events of the command worker. -/
inductive TransportEvent
  | send (cmd : List Char)
  | pub (d : Delivery)
  | replyTo (handle : Nat) (r : TTPResponse)
  | crash (f : CmdFailure)
deriving DecidableEq

/-- `DSP.__sync_cmd_process_loop`: pop `(handle, command)` pairs off the
FIFO command queue one at a time; for each, send the command and wait for
its reply (`__transport_send_and_wait`), then deliver the reply to the
submitting handle (mailbox write or `_sync_command_callback`).  The
`Exception` that `__transport_send_and_wait` raises on failure is not
caught anywhere in the loop, so it terminates the worker thread: the
`.crash` event ends the trace. -/
def syncCmdProcessLoop (subs : SubscriptionRegistry) :
    List (Nat × List Char) → List TTPResponse → List TransportEvent
  | [], _ => []
  | (h, c) :: rest, inbound =>
    TransportEvent.send c ::
      match transportSendAndWait subs inbound with
      | .ok (r, rem, ds) =>
          ds.map TransportEvent.pub ++ TransportEvent.replyTo h r :: syncCmdProcessLoop subs rest rem
      | .error f => [TransportEvent.crash f]

/-- The commands written to the transport, in order, along a trace. -/
def sentCommands (tr : List TransportEvent) : List (List Char) :=
  tr.filterMap fun e =>
    match e with
    | .send c => some c
    | _ => none

/-- Checks along a trace that a `send` only ever happens with no command
outstanding and a reply delivery only with one outstanding; the argument
is the number of commands currently outstanding on the transport. -/
def atMostOneOutstanding : Nat → List TransportEvent → Bool
  | _, [] => true
  | o, .send _ :: tr => o == 0 && atMostOneOutstanding 1 tr
  | o, .replyTo _ _ :: tr => o == 1 && atMostOneOutstanding 0 tr
  | o, .pub _ :: tr => atMostOneOutstanding o tr
  | o, .crash _ :: tr => atMostOneOutstanding o tr

/-- Whether a trace ends in a worker crash. -/
def crashFree (tr : List TransportEvent) : Bool :=
  tr.all fun e =>
    match e with
    | .crash _ => false
    | _ => true

/-- The deliveries that the receive loop makes for a list of publishes:
each publish whose token maps to a registered subscriber reaches that
subscriber's `subscription_callback`. -/
def pubDeliveries (subs : SubscriptionRegistry) (pubs : List TTPResponse) : List Delivery :=
  pubs.filterMap fun p =>
    match subs.lookup p.publish_token with
    | some (some s) => some ⟨s, p⟩
    | _ => none

/-! ## Caller-side synchronous commands (`DSP.__sync_command`) -/

/-- The caller-visible pieces of `DSP` state that `__sync_command`
touches: the single-slot reply mailbox and the connected flag. -/
structure DspCallerState where
  sync_cmd_mailbox : Option TTPResponse
  connected : Bool
deriving DecidableEq

/-- What `__sync_command` does for the caller. -/
inductive SyncCmdResult
  | ok (r : TTPResponse)
  | timeoutError
deriving DecidableEq

/-- `DSP.__sync_command` (dsp.py lines 433-462): clear the mailbox, queue
the command, and poll the mailbox until data arrives or the timeout (the
`timeout` parameter, default 3.0 seconds) elapses.  `arrival` abstracts
real time: it is the response placed in the mailbox within the timeout
window, if any.  On timeout the mailbox is cleared again and an
`Exception` is raised (`.timeoutError`); the connected flag and the
transport are never touched. -/
def syncCommand (st : DspCallerState) (arrival : Option TTPResponse) :
    SyncCmdResult × DspCallerState :=
  match arrival with
  | some r => (.ok r, { st with sync_cmd_mailbox := none })
  | none => (.timeoutError, { st with sync_cmd_mailbox := none })

/-- The default `timeout` parameter of `__sync_command`, in seconds. -/
def syncCommandDefaultTimeout : ℚ := 3

/-! ## Block map cache and discovery (`DSP.__getDSPBlockMap`) -/

/-- One entry of the DSP block map: the block type name and the opaque
attributes record (`None` right after discovery). -/
structure BlockMapEntry where
  btype : List Char
  attributes : Option (List Char) := none
deriving DecidableEq

/-- The parsed JSON content of a `.bmap` block-map file
(`DSP.save_block_map` writes exactly these four keys). -/
structure BlockMapFile where
  hostname : List Char
  aliases : List (List Char)
  blocks : List (List Char × BlockMapEntry)
  pytesira_version : List Char
deriving DecidableEq

/-- The `assert` in `DSP.__getDSPBlockMap` discovery (dsp.py line 335):
a `BLOCKTYPE` query that does not come back as an Error stops `connect`
with an `AssertionError`. -/
inductive DspAssertError
  | blockTypeQueryInvalidResponse (aliasId : List Char)
deriving DecidableEq

/-- dsp.py line 344: the block type inferred from the error message of a
`<alias> get BLOCKTYPE` query:
`value.split(" ")[-1].strip()` followed by
`.replace("Interface::Attributes", "").strip()`. -/
def blockTypeFromErrMsg (msg : List Char) : List Char :=
  pyStrip (pyReplace (pyStrip ((pySplit msg (pys (" "))).getLastD []))
    (pys ("Interface::Attributes")) [])

/-- Follows the claim's words, for comparison with `blockTypeFromErrMsg`:
the text after the last space of the message, with the suffix
`Interface::Attributes` removed when it is present. -/
def blockTypeClaimed (msg : List Char) : List Char :=
  let t := (pySplit msg (pys (" "))).getLastD []
  let suffix := pys ("Interface::Attributes")
  if suffix.isSuffixOf t then t.take (t.length - suffix.length) else t

/-- The live-query branch of `DSP.__getDSPBlockMap` (dsp.py lines
326-351).  `query` is the device: it maps an alias to the decoded response
of `<alias> get BLOCKTYPE`.  The reserved alias `device` is skipped; every
other alias must answer with an Error (otherwise the assertion raises);
an error message without `::Attributes` skips the alias, and otherwise the
alias is recorded with the inferred type and `attributes = None`. -/
def discoverBlockMap (query : List Char → TTPResponse) :
    List (List Char) → Except DspAssertError (List (List Char × BlockMapEntry))
  | [] => .ok []
  | a :: rest =>
    if a = pys ("device") then discoverBlockMap query rest
    else
      let r := query a
      if r.rtype = .CMD_ERROR then
        if pyContains (responseMsg r.value) (pys ("::Attributes")) then
          match discoverBlockMap query rest with
          | .ok m => .ok ((a, ⟨blockTypeFromErrMsg (responseMsg r.value), none⟩) :: m)
          | .error e => .error e
        else discoverBlockMap query rest
      else .error (.blockTypeQueryInvalidResponse a)

/-- What `DSP.__getDSPBlockMap` produced and did: the returned map,
whether the cache file was used, and whether the cache-failure warning
was logged. -/
structure BlockMapResult where
  map : List (List Char × BlockMapEntry)
  loadedFromCache : Bool
  warned : Bool
deriving DecidableEq

/-- `DSP.__getDSPBlockMap` (dsp.py lines 286-354).  `cacheFile` is `none`
when no block-map file was configured, `some none` when opening or JSON
parsing the file raises, and `some (some bm)` when it parses.  A parsed
file is used only if its hostname equals the live hostname, its sorted
aliases equal the sorted live aliases and its stored library version
equals the running version; any failure (including an unreadable file)
logs a warning and falls through to live discovery. -/
def getDSPBlockMap (cacheFile : Option (Option BlockMapFile)) (hostname : List Char)
    (dspAliases : List (List Char)) (version : List Char)
    (query : List Char → TTPResponse) : Except DspAssertError BlockMapResult :=
  match cacheFile with
  | some (some bm) =>
    if bm.hostname = hostname ∧ pySorted bm.aliases = pySorted dspAliases ∧
        bm.pytesira_version = version then
      .ok ⟨bm.blocks, true, false⟩
    else
      match discoverBlockMap query dspAliases with
      | .ok m => .ok ⟨m, false, true⟩
      | .error e => .error e
  | some none =>
    match discoverBlockMap query dspAliases with
    | .ok m => .ok ⟨m, false, true⟩
    | .error e => .error e
  | none =>
    match discoverBlockMap query dspAliases with
    | .ok m => .ok ⟨m, false, false⟩
    | .error e => .error e

/-! ## `DSP.connect` (dsp.py lines 77-208) -/

/-- The exceptional outcomes of `connect`.  `transportNeverReady` stands
for the wait at dsp.py line 93 never finishing; the other three are the
uncaught exceptions that can propagate out of `connect`: a failed
session/device baseline command, the discovery assertion, and an error
raised while constructing a supported block (only `ModuleNotFoundError`
is caught by the block loop). -/
inductive ConnectError
  | transportNeverReady
  | baselineFailed
  | discoveryAssert (e : DspAssertError)
  | blockInitError (block_id : List Char) (e : List Char)
deriving DecidableEq

/-- What `connect` built: the ids in the live catalog `self.blocks`, and
the `(block_id, block_type)` pairs logged as unsupported and omitted. -/
structure ConnectResult where
  blocks : List (List Char)
  unsupportedLogged : List (List Char × List Char)
deriving DecidableEq

/-- The block-initialization loop of `connect` (dsp.py lines 148-199).
`importable t` says whether `pytesira.block.<t>` imports (otherwise
`ModuleNotFoundError` is raised and caught: the block is logged and
skipped); `skip` is the user's `skip_block_types`; `initOutcome bid t` is
the outcome of constructing the block object — any exception it raises is
not caught and aborts `connect`. -/
def initBlocks (importable : List Char → Bool) (skip : List (List Char))
    (initOutcome : List Char → List Char → Except (List Char) Unit) :
    List (List Char × BlockMapEntry) → Except ConnectError ConnectResult
  | [] => .ok ⟨[], []⟩
  | (bid, e) :: rest =>
    if importable e.btype then
      if e.btype ∈ skip then initBlocks importable skip initOutcome rest
      else
        match initOutcome bid e.btype with
        | .error err => .error (.blockInitError bid err)
        | .ok _ =>
          match initBlocks importable skip initOutcome rest with
          | .ok r => .ok ⟨bid :: r.blocks, r.unsupportedLogged⟩
          | .error er => .error er
    else
      match initBlocks importable skip initOutcome rest with
      | .ok r => .ok ⟨r.blocks, (bid, e.btype) :: r.unsupportedLogged⟩
      | .error er => .error er

/-- `DSP.connect`: wait for the transport, run the session baseline and
device-statistics commands (`transportReady` and `baselineOk` abstract
those two phases), resolve the block map (cache or discovery), then run
the block-initialization loop. -/
def connect (transportReady : Bool) (baselineOk : Bool)
    (cacheFile : Option (Option BlockMapFile)) (hostname : List Char)
    (dspAliases : List (List Char)) (version : List Char)
    (query : List Char → TTPResponse) (importable : List Char → Bool)
    (skip : List (List Char))
    (initOutcome : List Char → List Char → Except (List Char) Unit) :
    Except ConnectError ConnectResult :=
  if !transportReady then .error .transportNeverReady
  else if !baselineOk then .error .baselineFailed
  else
    match getDSPBlockMap cacheFile hostname dspAliases version query with
    | .error e => .error (.discoveryAssert e)
    | .ok r => initBlocks importable skip initOutcome r.map

/-! ## `SourceSelector` (pytesira/block/SourceSelector.py) -/

/-- One entry of `SourceSelector.sources`: the per-source dict built by
`__query_attributes` with keys `index`, `label`, `level.min`, `level.max`
and `selected`; `level.current` appears once a `sourceLevel` publish for
the source arrives. -/
structure SourceEntry where
  index : Nat
  label : TTPValue
  levelMin : TTPValue
  levelMax : TTPValue
  levelCurrent : Option (List Char) := none
  selected : Bool
deriving DecidableEq

/-- The state of a `SourceSelector` block object. -/
structure SourceSelectorState where
  stereo : Bool
  num_input : Nat
  num_output : Nat
  muted : Bool
  selected_source : Int
  sources : List (List Char × SourceEntry)
  output_level : Option (List Char) := none
  min_output_level : TTPValue
  max_output_level : TTPValue
deriving DecidableEq

/-- The device answers that `SourceSelector.__query_attributes` consumes,
already through the `bool()`/`int()` coercions the source applies. -/
structure SelectorDevice where
  stereoEnable : Bool
  numInputs : Nat
  numOutputs : Nat
  outputMute : Bool
  labels : Nat → TTPValue
  sourceMinLevels : Nat → TTPValue
  sourceMaxLevels : Nat → TTPValue
  outputMinLevel : TTPValue
  outputMaxLevel : TTPValue

/-- `SourceSelector.__query_attributes` (SourceSelector.py lines 92-129):
query stereo mode, input/output counts and output mute; when stereo is
enabled halve both counts with integer division; start with no source
selected; build `sources` for indices 1..num_input (keys are the decimal
strings of the indices, `selected` false); query the output level
limits. -/
def SourceSelector.queryAttributes (d : SelectorDevice) : SourceSelectorState :=
  let ni := if d.stereoEnable then d.numInputs / 2 else d.numInputs
  let no := if d.stereoEnable then d.numOutputs / 2 else d.numOutputs
  { stereo := d.stereoEnable
    num_input := ni
    num_output := no
    muted := d.outputMute
    selected_source := 0
    sources := (List.range ni).map fun k =>
      (natChars (k+1),
        { index := k+1
          label := d.labels (k+1)
          levelMin := d.sourceMinLevels (k+1)
          levelMax := d.sourceMaxLevels (k+1)
          selected := false })
    min_output_level := d.outputMinLevel
    max_output_level := d.outputMaxLevel }

/-- `SourceSelector.subscription_callback` (SourceSelector.py lines
133-177).  An exception escaping the handler (a failed `int()`/`float()`
coercion, or the `NameError` on the unbound `idx` in the `sourceLevel`
error branch) is the `.error` case. -/
def SourceSelector.subscriptionCallback (st : SourceSelectorState) (r : TTPResponse) :
    Except (List Char) SourceSelectorState :=
  if r.subscription_type = pys ("outputMute") then
    .ok { st with muted := pyBoolCoe r.value }
  else if r.subscription_type = pys ("outputLevel") then
    match pyFloatCoe r.value with
    | some f => .ok { st with output_level := some f }
    | none => .error (pys ("float() raised"))
  else if r.subscription_type = pys ("sourceSelection") then
    match pyIntCoe r.value with
    | some v =>
      .ok { st with
        selected_source := v
        sources := st.sources.map fun p =>
          (p.1, { p.2 with selected := p.1 = intChars v }) }
    | none => .error (pys ("int() raised"))
  else if r.subscription_type = pys ("sourceLevel") then
    if (st.sources.lookup (intChars r.subscription_channel_id)).isSome then
      match pyFloatCoe r.value with
      | some f =>
        .ok { st with sources := st.sources.map fun p =>
          if p.1 = intChars r.subscription_channel_id then
            (p.1, { p.2 with levelCurrent := some f })
          else p }
      | none => .error (pys ("float() raised"))
    else .error (pys ("NameError: idx"))
  else .ok st

/-! ## Level/mute block bases
(pytesira/block/base_level_mute.py and base_level_mute_no_subscription.py) -/

/-- The nested `level` dict of a channel entry: `min` and `max` from the
base-attribute query, `current` present once set. -/
structure LevelDict where
  min : TTPValue
  max : TTPValue
  current : Option (List Char) := none
deriving DecidableEq

/-- One entry of `self.channels` in the level/mute bases. -/
structure ChannelDict where
  index : Nat
  label : TTPValue
  level : LevelDict
  muted : Option TTPValue := none
  inverted : Option TTPValue := none
deriving DecidableEq

/-- The command string `f'"{block_id}" set {key} {channel} {value}'` that
the level/mute setters build. -/
def setChannelCmd (block_id key : List Char) (channel : Nat) (value : List Char) : List Char :=
  '"' :: block_id ++ pys ("\" set ") ++ key ++ ' ' :: natChars channel ++ ' ' :: value

/-- `BaseLevelMute.set_level` (base_level_mute.py lines 140-145): send
`"{block_id}" set level {channel} {value}` and return the raw response.
The float `value` is embedded by its repr text.  The local channel state
is not touched by this setter (it is updated by the `levels` subscription
instead); the returned triple is (command sent, response returned,
channels after the call). -/
def BaseLevelMute.setLevel (block_id : List Char)
    (channels : List (List Char × ChannelDict)) (value : List Char) (channel : Nat)
    (reply : TTPResponse) :
    List Char × TTPResponse × List (List Char × ChannelDict) :=
  (setChannelCmd block_id (pys ("level")) channel value, reply, channels)

/-- Modelled from the spec: `Block._set_and_update_val` lives in
`pytesira/block/block.py`, which is not in the provided source tree.
Per spec section 4.6, a setter sends
`"<block-id>" set <attribute> [<channel>] <value>` and returns the raw
response, and a successful `+OK` reply updates the local copy
(write-through) while an Error leaves it untouched; accordingly the
returned stored value is the new value on `+OK` and the previous one
(`old`) otherwise.  Returns (command sent, stored value, response). -/
def setAndUpdateVal (block_id key : List Char) (value : List Char) (channel : Nat)
    (old : Option (List Char)) (reply : TTPResponse) :
    List Char × Option (List Char) × TTPResponse :=
  (setChannelCmd block_id key channel value,
    if reply.rtype = .CMD_OK then some value else old,
    reply)

/-- Write `v` into `channels[key]["level"]["current"]` (the claims only
exercise keys that are present, so the missing-key `KeyError` is not
modelled). -/
def updateChannelLevel (channels : List (List Char × ChannelDict)) (key : List Char)
    (v : Option (List Char)) : List (List Char × ChannelDict) :=
  channels.map fun p =>
    if p.1 = key then (p.1, { p.2 with level := { p.2.level with current := v } }) else p

/-- `BaseLevelMuteNoSubscription.set_level`
(base_level_mute_no_subscription.py lines 146-151): assign
`self.channels[str(channel)]["level"]["current"], cmd_res =
self._set_and_update_val("level", value, channel)` and return `cmd_res`.
Returns (command sent, response returned, channels after the call). -/
def BaseLevelMuteNoSubscription.setLevel (block_id : List Char)
    (channels : List (List Char × ChannelDict)) (value : List Char) (channel : Nat)
    (reply : TTPResponse) :
    List Char × TTPResponse × List (List Char × ChannelDict) :=
  let old := (channels.lookup (natChars channel)).bind fun c => c.level.current
  let r := setAndUpdateVal block_id (pys ("level")) value channel old reply
  (r.1, r.2.2, updateChannelLevel channels (natChars channel) r.2.1)

/-! ## `Channel` (pytesira/util/channel.py) -/

/-- A value passed to the parent-block callback by a `Channel` property
setter: a bool for the flag attributes, a float (by repr text) for the
level attributes. -/
inductive PyVal
  | pbool (b : Bool)
  | pfloat (f : List Char)
deriving DecidableEq

/-- One invocation of the parent-block callback
`callback(type, channel index, new value)`. -/
structure CallbackCall where
  attrName : List Char
  index : Nat
  value : PyVal
deriving DecidableEq

/-- The stored attributes of a `Channel` object (channel.py lines 28-37):
an attribute is `none` exactly when the schema did not supply it. -/
structure Channel where
  block_id : List Char
  index : Nat
  label : Option (List Char) := none
  muted : Option Bool := none
  inverted : Option Bool := none
  fault_on_inactive : Option Bool := none
  level : Option (List Char) := none
  min_level : Option (List Char) := none
  max_level : Option (List Char) := none
deriving DecidableEq

/-- The `muted` property setter (channel.py lines 84-88): assert the
stored value is not `None`, then invoke the callback; the stored value is
not written. -/
def Channel.setMuted (c : Channel) (value : Bool) :
    Except (List Char) (Channel × CallbackCall) :=
  if c.muted = none then .error (pys ("unsupported attribute muted"))
  else .ok (c, ⟨pys ("muted"), c.index, .pbool value⟩)

/-- The `inverted` property setter (channel.py lines 103-107). -/
def Channel.setInverted (c : Channel) (value : Bool) :
    Except (List Char) (Channel × CallbackCall) :=
  if c.inverted = none then .error (pys ("unsupported attribute inverted"))
  else .ok (c, ⟨pys ("inverted"), c.index, .pbool value⟩)

/-- The `fault_on_inactive` property setter (channel.py lines 122-126). -/
def Channel.setFaultOnInactive (c : Channel) (value : Bool) :
    Except (List Char) (Channel × CallbackCall) :=
  if c.fault_on_inactive = none then
    .error (pys ("unsupported attribute fault_on_inactive"))
  else .ok (c, ⟨pys ("fault_on_inactive"), c.index, .pbool value⟩)

/-- The `level` property setter (channel.py lines 141-145). -/
def Channel.setLevel (c : Channel) (value : List Char) :
    Except (List Char) (Channel × CallbackCall) :=
  if c.level = none then .error (pys ("unsupported attribute level"))
  else .ok (c, ⟨pys ("level"), c.index, .pfloat value⟩)

/-- The `min_level` property setter (channel.py lines 160-164).  The
source's guard is `assert self.__level is not None, "unsupported
attribute min_level"`: it tests the stored `level`, not the stored
`min_level`. -/
def Channel.setMinLevel (c : Channel) (value : List Char) :
    Except (List Char) (Channel × CallbackCall) :=
  if c.level = none then .error (pys ("unsupported attribute min_level"))
  else .ok (c, ⟨pys ("min_level"), c.index, .pfloat value⟩)

/-- The `max_level` property setter (channel.py lines 179-183).  As with
`min_level`, the source's guard tests the stored `level`. -/
def Channel.setMaxLevel (c : Channel) (value : List Char) :
    Except (List Char) (Channel × CallbackCall) :=
  if c.level = none then .error (pys ("unsupported attribute max_level"))
  else .ok (c, ⟨pys ("max_level"), c.index, .pfloat value⟩)

/-- The hidden updater `Channel._muted` (channel.py lines 90-95): the
only place the stored `muted` changes. -/
def Channel.updMuted (c : Channel) (value : Bool) : Channel :=
  { c with muted := some value }

/-- The hidden updater `Channel._level` (channel.py lines 147-152). -/
def Channel.updLevel (c : Channel) (value : List Char) : Channel :=
  { c with level := some value }

/-! ## Shared lemmas -/

/-- Subscription deliveries contribute no transport sends. -/
theorem sentCommands_pub_append (ds : List Delivery) (l : List TransportEvent) :
    sentCommands (ds.map TransportEvent.pub ++ l) = sentCommands l := by
  induction ds with
  | nil => rfl
  | cons d ds ih => simp [sentCommands]

/-- A transport send contributes itself to the sent-command projection. -/
theorem sentCommands_cons_send (c : List Char) (l : List TransportEvent) :
    sentCommands (TransportEvent.send c :: l) = c :: sentCommands l := by
  simp [sentCommands]

/-- A reply delivery contributes no transport send. -/
theorem sentCommands_cons_reply (h : Nat) (r : TTPResponse) (l : List TransportEvent) :
    sentCommands (TransportEvent.replyTo h r :: l) = sentCommands l := by
  simp [sentCommands]

/-- Subscription deliveries do not change the number of outstanding
commands. -/
theorem outstanding_pub_append (ds : List Delivery) (o : Nat) (l : List TransportEvent) :
    atMostOneOutstanding o (ds.map TransportEvent.pub ++ l) = atMostOneOutstanding o l := by
  induction ds with
  | nil => rfl
  | cons d ds ih => simpa [atMostOneOutstanding] using ih

/-- Subscription deliveries are not crashes. -/
theorem crashFree_pub_append (ds : List Delivery) (l : List TransportEvent) :
    crashFree (ds.map TransportEvent.pub ++ l) = crashFree l := by
  induction ds with
  | nil => rfl
  | cons d ds ih => simp [crashFree]

/-- A transport send is not a crash. -/
theorem crashFree_cons_send (c : List Char) (l : List TransportEvent) :
    crashFree (TransportEvent.send c :: l) = crashFree l := by
  simp [crashFree]

/-- A reply delivery is not a crash. -/
theorem crashFree_cons_reply (h : Nat) (r : TTPResponse) (l : List TransportEvent) :
    crashFree (TransportEvent.replyTo h r :: l) = crashFree l := by
  simp [crashFree]

/-- While waiting for a reply, the receive loop routes every publish whose
token is registered to its subscriber and keeps waiting; the first
non-publish line ends the wait and is returned. -/
theorem tsaw_registered_pubs (subs : SubscriptionRegistry) (pubs : List TTPResponse)
    (r : TTPResponse) (rest : List TTPResponse)
    (hp : ∀ p ∈ pubs, p.rtype = .SUBSCRIPTION ∧
      ∃ s, subs.lookup p.publish_token = some (some s))
    (hr : r.rtype ≠ .SUBSCRIPTION) :
    transportSendAndWait subs (pubs ++ r :: rest) = .ok (r, rest, pubDeliveries subs pubs) := by
  induction pubs with
  | nil => simp [transportSendAndWait, rxHandleLine, hr, pubDeliveries]
  | cons p ps ih =>
    obtain ⟨hps, s, hs⟩ := hp p (by simp)
    have ih' := ih fun q hq => hp q (by simp [hq])
    simp [transportSendAndWait, rxHandleLine, hps, hs, ih', pubDeliveries]

/-! ## C1 — FIFO, single-outstanding command worker -/

/-- C1: the command worker sends queued commands to the transport one at a
time: along any worker trace, a `send` happens only with no command
outstanding and each reply delivery closes the one outstanding command
(so at no instant is more than one command outstanding), and whenever the
worker does not crash, the sequence of transport sends is exactly the
sequence of submitted commands in queue (submission) order. -/
theorem sync_worker_fifo_single_outstanding (subs : SubscriptionRegistry)
    (cmds : List (Nat × List Char)) (inbound : List TTPResponse) :
    atMostOneOutstanding 0 (syncCmdProcessLoop subs cmds inbound) = true ∧
    (crashFree (syncCmdProcessLoop subs cmds inbound) = true →
      sentCommands (syncCmdProcessLoop subs cmds inbound) = cmds.map Prod.snd) := by
  induction cmds generalizing inbound with
  | nil => exact ⟨rfl, fun _ => rfl⟩
  | cons hc rest ih =>
    obtain ⟨h, c⟩ := hc
    cases htsaw : transportSendAndWait subs inbound with
    | error f =>
      refine ⟨?_, ?_⟩
      · simp [syncCmdProcessLoop, htsaw, atMostOneOutstanding]
      · intro hcf
        simp [syncCmdProcessLoop, htsaw, crashFree] at hcf
    | ok res =>
      obtain ⟨r, rem, ds⟩ := res
      refine ⟨?_, ?_⟩
      · simp [syncCmdProcessLoop, htsaw, atMostOneOutstanding,
          outstanding_pub_append, (ih rem).1]
      · intro hcf
        have hcf' : crashFree (syncCmdProcessLoop subs rest rem) = true := by
          simp only [syncCmdProcessLoop, htsaw, crashFree_cons_send] at hcf
          rw [crashFree_pub_append, crashFree_cons_reply] at hcf
          exact hcf
        simp only [syncCmdProcessLoop, htsaw, sentCommands_cons_send]
        rw [sentCommands_pub_append, sentCommands_cons_reply, (ih rem).2 hcf']
        simp

/-- Witness for `sync_worker_fifo_single_outstanding`: a concrete
two-command run in which both replies arrive. -/
theorem sync_worker_fifo_single_outstanding_witness :
    atMostOneOutstanding 0 (syncCmdProcessLoop []
      [(0, pys ("SESSION set verbose true")), (1, pys ("DEVICE get hostname"))]
      [{ rtype := .CMD_OK }, { rtype := .CMD_OK, value := .vStr (pys ("TesiraServer")) }])
      = true ∧
    sentCommands (syncCmdProcessLoop []
      [(0, pys ("SESSION set verbose true")), (1, pys ("DEVICE get hostname"))]
      [{ rtype := .CMD_OK }, { rtype := .CMD_OK, value := .vStr (pys ("TesiraServer")) }])
      = [pys ("SESSION set verbose true"), pys ("DEVICE get hostname")] := by
  have h := sync_worker_fifo_single_outstanding []
    [(0, pys ("SESSION set verbose true")), (1, pys ("DEVICE get hostname"))]
    [{ rtype := .CMD_OK }, { rtype := .CMD_OK, value := .vStr (pys ("TesiraServer")) }]
  exact ⟨h.1, h.2 (by decide)⟩

/-! ## C2 — reply correlation with interleaved publishes -/

/-- C2: for two back-to-back commands A then B whose replies `ra` and
`rb` (the first non-publish lines after each send) arrive with registered
subscription publishes interleaved, the worker trace routes every publish
to its registered subscriber's `subscription_callback` without ending
either wait, delivers `ra` to A's submitter and `rb` to B's. -/
theorem reply_correlation_with_interleaved_publishes (subs : SubscriptionRegistry)
    (hA hB : Nat) (A B : List Char) (pubs1 pubs2 : List TTPResponse) (ra rb : TTPResponse)
    (hp1 : ∀ p ∈ pubs1, p.rtype = .SUBSCRIPTION ∧
      ∃ s, subs.lookup p.publish_token = some (some s))
    (hp2 : ∀ p ∈ pubs2, p.rtype = .SUBSCRIPTION ∧
      ∃ s, subs.lookup p.publish_token = some (some s))
    (hra : ra.rtype ≠ .SUBSCRIPTION) (hrb : rb.rtype ≠ .SUBSCRIPTION) :
    syncCmdProcessLoop subs [(hA, A), (hB, B)] (pubs1 ++ ra :: (pubs2 ++ [rb])) =
      TransportEvent.send A :: (pubDeliveries subs pubs1).map TransportEvent.pub ++
        TransportEvent.replyTo hA ra :: TransportEvent.send B ::
        (pubDeliveries subs pubs2).map TransportEvent.pub ++
        [TransportEvent.replyTo hB rb] := by
  have h1 := tsaw_registered_pubs subs pubs1 ra (pubs2 ++ [rb]) hp1 hra
  have h2 := tsaw_registered_pubs subs pubs2 rb [] hp2 hrb
  simp [syncCmdProcessLoop, h1, h2]

/-- Witness for `reply_correlation_with_interleaved_publishes`: a mute
publish for a registered block arrives between A's send and A's reply. -/
theorem reply_correlation_with_interleaved_publishes_witness :
    syncCmdProcessLoop [(pys ("mm1"), some ⟨pys ("MuteBlockB")⟩)]
      [(0, pys ("\"MixerA\" get label 1")), (1, pys ("\"MixerA\" get label 2"))]
      [{ rtype := .SUBSCRIPTION, value := .vBool true, publish_token := pys ("mm1"),
          subscription_type := pys ("mutes") },
       { rtype := .CMD_OK, value := .vStr (pys ("Front")) },
       { rtype := .CMD_OK, value := .vStr (pys ("Rear")) }] =
      [TransportEvent.send (pys ("\"MixerA\" get label 1")),
       TransportEvent.pub ⟨⟨pys ("MuteBlockB")⟩,
         { rtype := .SUBSCRIPTION, value := .vBool true, publish_token := pys ("mm1"),
           subscription_type := pys ("mutes") }⟩,
       TransportEvent.replyTo 0 { rtype := .CMD_OK, value := .vStr (pys ("Front")) },
       TransportEvent.send (pys ("\"MixerA\" get label 2")),
       TransportEvent.replyTo 1 { rtype := .CMD_OK, value := .vStr (pys ("Rear")) }] := by
  have h := reply_correlation_with_interleaved_publishes
    [(pys ("mm1"), some ⟨pys ("MuteBlockB")⟩)] 0 1
    (pys ("\"MixerA\" get label 1")) (pys ("\"MixerA\" get label 2"))
    [{ rtype := .SUBSCRIPTION, value := .vBool true, publish_token := pys ("mm1"),
        subscription_type := pys ("mutes") }] []
    { rtype := .CMD_OK, value := .vStr (pys ("Front")) }
    { rtype := .CMD_OK, value := .vStr (pys ("Rear")) }
    (by intro p hp; simp only [List.mem_singleton] at hp; subst hp
        exact ⟨rfl, ⟨pys ("MuteBlockB")⟩, rfl⟩)
    (by simp) (by decide) (by decide)
  simpa using h

/-! ## C3 — `set_level` command and write-through -/

/-- C3 counterexample: on the subscription-based level/mute base
(`BaseLevelMute`, the class the claim cites first), `set_level(-3.5, 1)`
against channels 1 and 2 both at level -10.0 sends exactly
`"MixerA" set level 1 -3.5` and the `+OK` reply is returned — but the
local copy is NOT updated write-through: `channels["1"]["level"]["current"]`
is still -10.0 after the call, not -3.5 as the claim states. -/
theorem set_level_writethrough_counterexample :
    (BaseLevelMute.setLevel (pys ("MixerA"))
      [(pys ("1"), ⟨1, .vStr (pys ("Ch1")),
          ⟨.vFloat (pys ("-100.0")), .vFloat (pys ("12.0")), some (pys ("-10.0"))⟩, none, none⟩),
       (pys ("2"), ⟨2, .vStr (pys ("Ch2")),
          ⟨.vFloat (pys ("-100.0")), .vFloat (pys ("12.0")), some (pys ("-10.0"))⟩, none, none⟩)]
      (pys ("-3.5")) 1 { rtype := .CMD_OK }).1 = pys ("\"MixerA\" set level 1 -3.5") ∧
    ((BaseLevelMute.setLevel (pys ("MixerA"))
      [(pys ("1"), ⟨1, .vStr (pys ("Ch1")),
          ⟨.vFloat (pys ("-100.0")), .vFloat (pys ("12.0")), some (pys ("-10.0"))⟩, none, none⟩),
       (pys ("2"), ⟨2, .vStr (pys ("Ch2")),
          ⟨.vFloat (pys ("-100.0")), .vFloat (pys ("12.0")), some (pys ("-10.0"))⟩, none, none⟩)]
      (pys ("-3.5")) 1 { rtype := .CMD_OK }).2.1 = { rtype := .CMD_OK } ∧
    ((((BaseLevelMute.setLevel (pys ("MixerA"))
      [(pys ("1"), ⟨1, .vStr (pys ("Ch1")),
          ⟨.vFloat (pys ("-100.0")), .vFloat (pys ("12.0")), some (pys ("-10.0"))⟩, none, none⟩),
       (pys ("2"), ⟨2, .vStr (pys ("Ch2")),
          ⟨.vFloat (pys ("-100.0")), .vFloat (pys ("12.0")), some (pys ("-10.0"))⟩, none, none⟩)]
      (pys ("-3.5")) 1 { rtype := .CMD_OK }).2.2.lookup (pys ("1"))).bind
        fun c => c.level.current) = some (pys ("-10.0")) ∧
      ¬ (((((BaseLevelMute.setLevel (pys ("MixerA"))
      [(pys ("1"), ⟨1, .vStr (pys ("Ch1")),
          ⟨.vFloat (pys ("-100.0")), .vFloat (pys ("12.0")), some (pys ("-10.0"))⟩, none, none⟩),
       (pys ("2"), ⟨2, .vStr (pys ("Ch2")),
          ⟨.vFloat (pys ("-100.0")), .vFloat (pys ("12.0")), some (pys ("-10.0"))⟩, none, none⟩)]
      (pys ("-3.5")) 1 { rtype := .CMD_OK }).2.2.lookup (pys ("1"))).bind
        fun c => c.level.current)) = some (pys ("-3.5"))))) := by
  refine ⟨by decide, by decide, by decide, by decide⟩

/-- C3 (amended): on both level/mute bases `set_level(value, channel)`
sends exactly `"{block_id}" set level {channel} {value}` and returns the
raw device reply; on `BaseLevelMuteNoSubscription` a `+OK` reply updates
the local copy write-through — `channels[str(channel)]["level"]["current"]`
becomes the new value and every other channel entry is unchanged — while
on `BaseLevelMute` the local copy is left untouched by the setter (it is
updated by the `levels` subscription instead). -/
theorem set_level_amended (block_id : List Char)
    (channels : List (List Char × ChannelDict)) (value : List Char) (channel : Nat)
    (reply : TTPResponse) (hok : reply.rtype = .CMD_OK) :
    BaseLevelMute.setLevel block_id channels value channel reply =
      ('"' :: block_id ++ pys ("\" set level ") ++ natChars channel ++ ' ' :: value,
        reply, channels) ∧
    (BaseLevelMuteNoSubscription.setLevel block_id channels value channel reply).1 =
      '"' :: block_id ++ pys ("\" set level ") ++ natChars channel ++ ' ' :: value ∧
    (BaseLevelMuteNoSubscription.setLevel block_id channels value channel reply).2.1 =
      reply ∧
    (∀ k c, (k, c) ∈ channels → k ≠ natChars channel →
      (k, c) ∈ (BaseLevelMuteNoSubscription.setLevel block_id channels value channel reply).2.2) ∧
    (∀ k c, (k, c) ∈ channels → k = natChars channel →
      (k, { c with level := { c.level with current := some value } }) ∈
        (BaseLevelMuteNoSubscription.setLevel block_id channels value channel reply).2.2) := by
  refine ⟨?_, ?_, ?_, ?_, ?_⟩
  · simp [BaseLevelMute.setLevel, setChannelCmd, pys]
  · simp [BaseLevelMuteNoSubscription.setLevel, setAndUpdateVal, setChannelCmd, pys]
  · simp [BaseLevelMuteNoSubscription.setLevel, setAndUpdateVal]
  · intro k c hmem hne
    simp only [BaseLevelMuteNoSubscription.setLevel, setAndUpdateVal, updateChannelLevel]
    exact List.mem_map.mpr ⟨(k, c), hmem, by simp [hne]⟩
  · intro k c hmem hk
    simp only [BaseLevelMuteNoSubscription.setLevel, setAndUpdateVal, updateChannelLevel, hok]
    exact List.mem_map.mpr ⟨(k, c), hmem, by simp [hk]⟩

/-- Witness for `set_level_amended`: the claim's concrete scenario on the
no-subscription base, where write-through does happen. -/
theorem set_level_amended_witness :
    (BaseLevelMuteNoSubscription.setLevel (pys ("MixerA"))
      [(pys ("1"), ⟨1, .vStr (pys ("Ch1")),
          ⟨.vFloat (pys ("-100.0")), .vFloat (pys ("12.0")), some (pys ("-10.0"))⟩, none, none⟩),
       (pys ("2"), ⟨2, .vStr (pys ("Ch2")),
          ⟨.vFloat (pys ("-100.0")), .vFloat (pys ("12.0")), some (pys ("-10.0"))⟩, none, none⟩)]
      (pys ("-3.5")) 1 { rtype := .CMD_OK }).1 = pys ("\"MixerA\" set level 1 -3.5") ∧
    (pys ("1"), (⟨1, .vStr (pys ("Ch1")),
        ⟨.vFloat (pys ("-100.0")), .vFloat (pys ("12.0")), some (pys ("-3.5"))⟩, none, none⟩ : ChannelDict)) ∈
      (BaseLevelMuteNoSubscription.setLevel (pys ("MixerA"))
      [(pys ("1"), ⟨1, .vStr (pys ("Ch1")),
          ⟨.vFloat (pys ("-100.0")), .vFloat (pys ("12.0")), some (pys ("-10.0"))⟩, none, none⟩),
       (pys ("2"), ⟨2, .vStr (pys ("Ch2")),
          ⟨.vFloat (pys ("-100.0")), .vFloat (pys ("12.0")), some (pys ("-10.0"))⟩, none, none⟩)]
      (pys ("-3.5")) 1 { rtype := .CMD_OK }).2.2 ∧
    (pys ("2"), (⟨2, .vStr (pys ("Ch2")),
        ⟨.vFloat (pys ("-100.0")), .vFloat (pys ("12.0")), some (pys ("-10.0"))⟩, none, none⟩ : ChannelDict)) ∈
      (BaseLevelMuteNoSubscription.setLevel (pys ("MixerA"))
      [(pys ("1"), ⟨1, .vStr (pys ("Ch1")),
          ⟨.vFloat (pys ("-100.0")), .vFloat (pys ("12.0")), some (pys ("-10.0"))⟩, none, none⟩),
       (pys ("2"), ⟨2, .vStr (pys ("Ch2")),
          ⟨.vFloat (pys ("-100.0")), .vFloat (pys ("12.0")), some (pys ("-10.0"))⟩, none, none⟩)]
      (pys ("-3.5")) 1 { rtype := .CMD_OK }).2.2 := by
  have h := set_level_amended (pys ("MixerA"))
    [(pys ("1"), ⟨1, .vStr (pys ("Ch1")),
        ⟨.vFloat (pys ("-100.0")), .vFloat (pys ("12.0")), some (pys ("-10.0"))⟩, none, none⟩),
     (pys ("2"), ⟨2, .vStr (pys ("Ch2")),
        ⟨.vFloat (pys ("-100.0")), .vFloat (pys ("12.0")), some (pys ("-10.0"))⟩, none, none⟩)]
    (pys ("-3.5")) 1 { rtype := .CMD_OK } rfl
  refine ⟨by simpa using h.2.1, ?_, ?_⟩
  · have := h.2.2.2.2 (pys ("1"))
      ⟨1, .vStr (pys ("Ch1")),
        ⟨.vFloat (pys ("-100.0")), .vFloat (pys ("12.0")), some (pys ("-10.0"))⟩, none, none⟩
      (by simp) (by decide)
    simpa using this
  · have := h.2.2.2.1 (pys ("2"))
      ⟨2, .vStr (pys ("Ch2")),
        ⟨.vFloat (pys ("-100.0")), .vFloat (pys ("12.0")), some (pys ("-10.0"))⟩, none, none⟩
      (by simp) (by decide)
    exact this

/-! ## C4 — block-map cache validation -/

/-- C4: a configured block-map cache file is used if and only if it
parses and its hostname, sorted aliases and stored library version all
equal the live values; a parse failure or any single mismatch discards
the whole cache, logs the warning, and makes the result the live
discovery result instead. -/
theorem cache_validation (cacheFile : Option (Option BlockMapFile)) (hostname : List Char)
    (dspAliases : List (List Char)) (version : List Char)
    (query : List Char → TTPResponse) :
    (∀ res, getDSPBlockMap cacheFile hostname dspAliases version query = .ok res →
      res.loadedFromCache = true →
      ∃ bm, cacheFile = some (some bm) ∧ bm.hostname = hostname ∧
        pySorted bm.aliases = pySorted dspAliases ∧ bm.pytesira_version = version ∧
        res.map = bm.blocks ∧ res.warned = false) ∧
    (∀ bm, cacheFile = some (some bm) →
      bm.hostname = hostname → pySorted bm.aliases = pySorted dspAliases →
      bm.pytesira_version = version →
      getDSPBlockMap cacheFile hostname dspAliases version query = .ok ⟨bm.blocks, true, false⟩) ∧
    (∀ bm, cacheFile = some (some bm) →
      (bm.hostname ≠ hostname ∨ pySorted bm.aliases ≠ pySorted dspAliases ∨
        bm.pytesira_version ≠ version) →
      (∀ m, discoverBlockMap query dspAliases = .ok m →
        getDSPBlockMap cacheFile hostname dspAliases version query = .ok ⟨m, false, true⟩) ∧
      (∀ e, discoverBlockMap query dspAliases = .error e →
        getDSPBlockMap cacheFile hostname dspAliases version query = .error e)) ∧
    (cacheFile = some none →
      (∀ m, discoverBlockMap query dspAliases = .ok m →
        getDSPBlockMap cacheFile hostname dspAliases version query = .ok ⟨m, false, true⟩) ∧
      (∀ e, discoverBlockMap query dspAliases = .error e →
        getDSPBlockMap cacheFile hostname dspAliases version query = .error e)) := by
  refine ⟨?_, ?_, ?_, ?_⟩
  · intro res hres hloaded
    match hcf : cacheFile with
    | none =>
      subst hcf
      simp only [getDSPBlockMap] at hres
      cases hd : discoverBlockMap query dspAliases with
      | ok m => rw [hd] at hres; cases hres; simp at hloaded
      | error e => rw [hd] at hres; cases hres
    | some none =>
      subst hcf
      simp only [getDSPBlockMap] at hres
      cases hd : discoverBlockMap query dspAliases with
      | ok m => rw [hd] at hres; cases hres; simp at hloaded
      | error e => rw [hd] at hres; cases hres
    | some (some bm) =>
      subst hcf
      simp only [getDSPBlockMap] at hres
      by_cases hmatch : bm.hostname = hostname ∧ pySorted bm.aliases = pySorted dspAliases ∧
          bm.pytesira_version = version
      · rw [if_pos hmatch] at hres
        cases hres
        exact ⟨bm, rfl, hmatch.1, hmatch.2.1, hmatch.2.2, rfl, rfl⟩
      · rw [if_neg hmatch] at hres
        cases hd : discoverBlockMap query dspAliases with
        | ok m => rw [hd] at hres; cases hres; simp at hloaded
        | error e => rw [hd] at hres; cases hres
  · intro bm hcf h1 h2 h3
    subst hcf
    simp [getDSPBlockMap, h1, h2, h3]
  · intro bm hcf hmis
    subst hcf
    have hne : ¬ (bm.hostname = hostname ∧ pySorted bm.aliases = pySorted dspAliases ∧
        bm.pytesira_version = version) := by
      rcases hmis with h | h | h <;> intro hc <;> exact h (by tauto)
    constructor
    · intro m hd
      simp [getDSPBlockMap, hne, hd]
    · intro e hd
      simp [getDSPBlockMap, hne, hd]
  · intro hcf
    subst hcf
    constructor
    · intro m hd
      simp [getDSPBlockMap, hd]
    · intro e hd
      simp [getDSPBlockMap, hd]

/-- Witness for `cache_validation`: a cache file whose hostname differs
from the live one is discarded and the live discovery result (with the
warning) is returned instead. -/
theorem cache_validation_witness :
    getDSPBlockMap
      (some (some ⟨pys ("dsp-old"), [pys ("device"), pys ("Gate1")],
        [(pys ("Gate1"), ⟨pys ("Gate"), none⟩)], pys ("1.0.0")⟩))
      (pys ("dsp-new")) [pys ("device"), pys ("Gate1")] (pys ("1.0.0"))
      (fun a => if a = pys ("Gate1") then
          { rtype := .CMD_ERROR, value := .vStr (pys ("Ducker GateInterface::Attributes")) }
        else { rtype := .CMD_OK }) =
      .ok ⟨[(pys ("Gate1"), ⟨pys ("Gate"), none⟩)], false, true⟩ := by
  have h := (cache_validation
    (some (some ⟨pys ("dsp-old"), [pys ("device"), pys ("Gate1")],
      [(pys ("Gate1"), ⟨pys ("Gate"), none⟩)], pys ("1.0.0")⟩))
    (pys ("dsp-new")) [pys ("device"), pys ("Gate1")] (pys ("1.0.0"))
    (fun a => if a = pys ("Gate1") then
        { rtype := .CMD_ERROR, value := .vStr (pys ("Ducker GateInterface::Attributes")) }
      else { rtype := .CMD_OK })).2.2.1
    ⟨pys ("dsp-old"), [pys ("device"), pys ("Gate1")],
      [(pys ("Gate1"), ⟨pys ("Gate"), none⟩)], pys ("1.0.0")⟩
    rfl (Or.inl (by decide))
  exact h.1 [(pys ("Gate1"), ⟨pys ("Gate"), none⟩)] rfl

/-! ## C5 — block-type discovery from error text -/

/-- C5 counterexample: the source computes the block type with
`value.split(" ")[-1].strip().replace("Interface::Attributes", "").strip()`,
which removes every occurrence of `Interface::Attributes` in the last
token, not just a suffix.  For the error text
`Ducker XInterface::AttributesY` (which contains `::Attributes`, so the
alias is not skipped) the code records block type `XY`, while the claim's
description (last token with the suffix removed) gives
`XInterface::AttributesY`. -/
theorem discovery_blocktype_counterexample :
    discoverBlockMap
      (fun a => if a = pys ("Gate1") then
          { rtype := .CMD_ERROR, value := .vStr (pys ("Ducker XInterface::AttributesY")) }
        else { rtype := .CMD_OK })
      [pys ("Gate1")] = .ok [(pys ("Gate1"), ⟨pys ("XY"), none⟩)] ∧
    blockTypeClaimed (pys ("Ducker XInterface::AttributesY"))
      = pys ("XInterface::AttributesY") ∧
    pys ("XY") ≠ pys ("XInterface::AttributesY") := by
  refine ⟨rfl, by decide, by decide⟩

/-- C5 (amended): during discovery every alias except the reserved
`device` handle is queried with `<alias> get BLOCKTYPE` and must yield an
Error (a non-Error reply raises the assertion); an alias whose error text
lacks `::Attributes` is skipped, and otherwise the recorded block type is
the text after the last space of the message with every occurrence of
`Interface::Attributes` removed and surrounding whitespace stripped
(so `-ERR Ducker GateInterface::Attributes` yields `Gate`). -/
theorem discovery_blocktype_amended (query : List Char → TTPResponse)
    (dspAliases : List (List Char)) :
    ((∀ a ∈ dspAliases, a ≠ pys ("device") → (query a).rtype = .CMD_ERROR) →
      discoverBlockMap query dspAliases = .ok (dspAliases.filterMap fun a =>
        if a = pys ("device") then none
        else if pyContains (responseMsg (query a).value) (pys ("::Attributes")) then
          some (a, ⟨blockTypeFromErrMsg (responseMsg (query a).value), none⟩)
        else none)) ∧
    ((∃ a ∈ dspAliases, a ≠ pys ("device") ∧ (query a).rtype ≠ .CMD_ERROR) →
      ∃ e, discoverBlockMap query dspAliases = .error e) := by
  constructor
  · intro hall
    induction dspAliases with
    | nil => rfl
    | cons a rest ih =>
      have ih' := ih fun b hb => hall b (by simp [hb])
      by_cases hdev : a = pys ("device")
      · simp [discoverBlockMap, hdev, ih']
      · have herr := hall a (by simp) hdev
        by_cases hcont : pyContains (responseMsg (query a).value) (pys ("::Attributes")) = true
        · simp [discoverBlockMap, hdev, herr, hcont, ih']
        · simp [discoverBlockMap, hdev, herr, hcont, ih']
  · intro hex
    induction dspAliases with
    | nil => simp at hex
    | cons a rest ih =>
      by_cases hdev : a = pys ("device")
      · have hex' : ∃ b ∈ rest, b ≠ pys ("device") ∧ (query b).rtype ≠ .CMD_ERROR := by
          rcases hex with ⟨b, hb, hbd, hbe⟩
          rcases List.mem_cons.mp hb with hba | hbr
          · exact absurd (hba ▸ hdev) hbd
          · exact ⟨b, hbr, hbd, hbe⟩
        obtain ⟨e, he⟩ := ih hex'
        exact ⟨e, by simp [discoverBlockMap, hdev, he]⟩
      · by_cases herr : (query a).rtype = .CMD_ERROR
        · have hex' : ∃ b ∈ rest, b ≠ pys ("device") ∧ (query b).rtype ≠ .CMD_ERROR := by
            rcases hex with ⟨b, hb, hbd, hbe⟩
            rcases List.mem_cons.mp hb with hba | hbr
            · exact absurd (hba ▸ herr) hbe
            · exact ⟨b, hbr, hbd, hbe⟩
          obtain ⟨e, he⟩ := ih hex'
          by_cases hcont : pyContains (responseMsg (query a).value) (pys ("::Attributes")) = true
          · exact ⟨e, by simp [discoverBlockMap, hdev, herr, hcont, he]⟩
          · exact ⟨e, by simp [discoverBlockMap, hdev, herr, hcont, he]⟩
        · exact ⟨.blockTypeQueryInvalidResponse a, by simp [discoverBlockMap, hdev, herr]⟩

/-- Witness for `discovery_blocktype_amended`: the claim's concrete
scenario — `Gate1 get BLOCKTYPE` answered by
`-ERR Ducker GateInterface::Attributes` discovers block type `Gate`,
and the `device` handle is skipped. -/
theorem discovery_blocktype_amended_witness :
    discoverBlockMap
      (fun a => if a = pys ("Gate1") then
          { rtype := .CMD_ERROR, value := .vStr (pys ("Ducker GateInterface::Attributes")) }
        else { rtype := .CMD_OK })
      [pys ("device"), pys ("Gate1")] = .ok [(pys ("Gate1"), ⟨pys ("Gate"), none⟩)] := by
  have h := (discovery_blocktype_amended
    (fun a => if a = pys ("Gate1") then
        { rtype := .CMD_ERROR, value := .vStr (pys ("Ducker GateInterface::Attributes")) }
      else { rtype := .CMD_OK })
    [pys ("device"), pys ("Gate1")]).1 (by
      intro a ha hne
      rcases List.mem_cons.mp ha with h1 | h1
      · exact absurd h1 hne
      · simp only [List.mem_singleton] at h1
        subst h1
        rfl)
  rw [h]
  rfl

/-! ## C6 — command timeout -/

/-- C6, evaluated at the failing input: when no reply line arrives for a
submitted command, the caller side behaves as the claim says — the
submission raises the timeout `Exception`, the reply mailbox is cleared
and the connected flag is untouched — but the worker's own
`__transport_send_and_wait` timeout is raised uncaught inside
`__sync_cmd_process_loop`, so the worker thread dies and the next
submitted command is never sent (its `send` never appears in the trace),
contradicting the claim's "the next submitted command proceeds
normally". -/
theorem sync_command_timeout_behavior :
    syncCommand ⟨none, true⟩ none = (.timeoutError, ⟨none, true⟩) ∧
    syncCommandDefaultTimeout = 3 ∧
    syncCmdProcessLoop []
      [(0, pys ("DEVICE get hostname")), (1, pys ("DEVICE get serialNumber"))] [] =
      [TransportEvent.send (pys ("DEVICE get hostname")), TransportEvent.crash .timeout] := by
  refine ⟨rfl, rfl, rfl⟩

/-! ## C7 — publish with an unknown token -/

/-- C7, evaluated at the failing input: a publish whose token has no
entry in the subscription registry makes
`self.__subscriptions[decoded.publish_token]` raise `KeyError` before the
`if not subscriber` guard can log it, so no `subscription_callback` is
invoked and the receive loop thread terminates instead of continuing;
a send-and-wait in progress then fails with the propagated error rather
than seeing the event dropped. -/
theorem rx_unknown_token_keyerror :
    rxHandleLine []
      { rtype := .SUBSCRIPTION, value := .vBool true, publish_token := pys ("xyz"),
        subscription_type := pys ("mutes") } = .keyError (pys ("xyz")) ∧
    transportSendAndWait []
      [{ rtype := .SUBSCRIPTION, value := .vBool true, publish_token := pys ("xyz"),
          subscription_type := pys ("mutes") },
       { rtype := .CMD_OK }] = .error (.rxKeyError (pys ("xyz"))) := by
  refine ⟨rfl, rfl⟩

/-! ## C8 — a single bad block and `connect` failure modes -/

/-- In an association list with pairwise-distinct keys, a key determines
its entry. -/
theorem assoc_key_unique {α β : Type} [DecidableEq α] (m : List (α × β))
    (hnd : (m.map Prod.fst).Nodup) (k : α) (a b : β)
    (ha : (k, a) ∈ m) (hb : (k, b) ∈ m) : a = b := by
  induction m with
  | nil => simp at ha
  | cons p rest ih =>
    simp only [List.map_cons, List.nodup_cons] at hnd
    rcases List.mem_cons.mp ha with h1 | h1 <;> rcases List.mem_cons.mp hb with h2 | h2
    · rw [← h2] at h1
      exact (Prod.ext_iff.mp h1).2
    · exfalso
      rw [← h1] at hnd
      exact hnd.1 (List.mem_map.mpr ⟨(k, b), h2, rfl⟩)
    · exfalso
      rw [← h2] at hnd
      exact hnd.1 (List.mem_map.mpr ⟨(k, a), h1, rfl⟩)
    · exact ih hnd.2 h1 h2

/-- When every importable, non-skipped block constructs successfully, the
block loop completes; blocks of unsupported types are logged and omitted,
and everything in the catalog came from an importable entry. -/
theorem initBlocks_ok_spec (importable : List Char → Bool) (skip : List (List Char))
    (initOutcome : List Char → List Char → Except (List Char) Unit)
    (m : List (List Char × BlockMapEntry))
    (hinit : ∀ bid e, (bid, e) ∈ m → importable e.btype = true → e.btype ∉ skip →
      initOutcome bid e.btype = .ok ()) :
    ∃ r, initBlocks importable skip initOutcome m = .ok r ∧
      (∀ bid e, (bid, e) ∈ m → importable e.btype = false →
        (bid, e.btype) ∈ r.unsupportedLogged) ∧
      (∀ bid, bid ∈ r.blocks → ∃ e, (bid, e) ∈ m ∧ importable e.btype = true) := by
  induction m with
  | nil => exact ⟨⟨[], []⟩, rfl, by simp, by simp⟩
  | cons p rest ih =>
    obtain ⟨bid0, e0⟩ := p
    obtain ⟨r, hr, hlog, hblk⟩ := ih fun bid e hm himp hsk =>
      hinit bid e (by simp [hm]) himp hsk
    by_cases himp : importable e0.btype = true
    · by_cases hsk : e0.btype ∈ skip
      · refine ⟨r, by simp [initBlocks, himp, hsk, hr], ?_, ?_⟩
        · intro bid e hm hni
          rcases List.mem_cons.mp hm with h1 | h1
          · injection h1 with hb1 he1
            subst he1
            rw [hni] at himp
            cases himp
          · exact hlog bid e h1 hni
        · intro bid hb
          obtain ⟨e, he, hei⟩ := hblk bid hb
          exact ⟨e, by simp [he], hei⟩
      · have hio := hinit bid0 e0 (by simp) himp hsk
        refine ⟨⟨bid0 :: r.blocks, r.unsupportedLogged⟩,
          by simp [initBlocks, himp, hsk, hio, hr], ?_, ?_⟩
        · intro bid e hm hni
          rcases List.mem_cons.mp hm with h1 | h1
          · injection h1 with hb1 he1
            subst he1
            rw [hni] at himp
            cases himp
          · exact hlog bid e h1 hni
        · intro bid hb
          rcases List.mem_cons.mp hb with h1 | h1
          · exact ⟨e0, by simp [h1], himp⟩
          · obtain ⟨e, he, hei⟩ := hblk bid h1
            exact ⟨e, by simp [he], hei⟩
    · have himp' : importable e0.btype = false := by
        cases h : importable e0.btype
        · rfl
        · exact absurd h himp
      refine ⟨⟨r.blocks, (bid0, e0.btype) :: r.unsupportedLogged⟩,
        by simp [initBlocks, himp', hr], ?_, ?_⟩
      · intro bid e hm hni
        rcases List.mem_cons.mp hm with h1 | h1
        · injection h1 with hb1 he1
          subst hb1
          subst he1
          simp
        · simp [hlog bid e h1 hni]
      · intro bid hb
        obtain ⟨e, he, hei⟩ := hblk bid hb
        exact ⟨e, by simp [he], hei⟩

/-- C8 counterexample: with the transport ready and every baseline
command succeeding, `connect` still fails — during discovery the alias
`X` answers its `BLOCKTYPE` query with `+OK`, and the uncaught
`AssertionError` of dsp.py line 335 aborts `connect`.  So "connect fails
only if the transport never becomes ready or the session baseline
commands fail" is false on the code. -/
theorem connect_failure_counterexample :
    connect true true none (pys ("host")) [pys ("X")] (pys ("1.0"))
      (fun _ => { rtype := .CMD_OK }) (fun _ => true) [] (fun _ _ => .ok ())
      = .error (.discoveryAssert (.blockTypeQueryInvalidResponse (pys ("X")))) ∧
    (ConnectError.discoveryAssert (.blockTypeQueryInvalidResponse (pys ("X")))
      ≠ .transportNeverReady) ∧
    (ConnectError.discoveryAssert (.blockTypeQueryInvalidResponse (pys ("X")))
      ≠ .baselineFailed) := by
  refine ⟨rfl, by decide, by decide⟩

/-- C8 (amended): every block in the block map whose type has no
implementation is logged and omitted from the live catalog while
`connect` continues, and `connect` completes when the transport is ready,
the baseline succeeds, the block map resolves and every supported,
non-skipped block constructs; but besides a transport that never becomes
ready and failing baseline commands, `connect` also fails when block-map
discovery hits a non-Error `BLOCKTYPE` reply (an uncaught assertion) or a
supported block's construction raises. -/
theorem connect_amended (transportReady baselineOk : Bool)
    (cacheFile : Option (Option BlockMapFile)) (hostname : List Char)
    (dspAliases : List (List Char)) (version : List Char)
    (query : List Char → TTPResponse) (importable : List Char → Bool)
    (skip : List (List Char))
    (initOutcome : List Char → List Char → Except (List Char) Unit)
    (bmres : BlockMapResult)
    (hready : transportReady = true) (hbase : baselineOk = true)
    (hbm : getDSPBlockMap cacheFile hostname dspAliases version query = .ok bmres)
    (hnd : (bmres.map.map Prod.fst).Nodup)
    (hinit : ∀ bid e, (bid, e) ∈ bmres.map → importable e.btype = true →
      e.btype ∉ skip → initOutcome bid e.btype = .ok ()) :
    ∃ r, connect transportReady baselineOk cacheFile hostname dspAliases version
        query importable skip initOutcome = .ok r ∧
      ∀ bid e, (bid, e) ∈ bmres.map → importable e.btype = false →
        (bid, e.btype) ∈ r.unsupportedLogged ∧ bid ∉ r.blocks := by
  obtain ⟨r, hr, hlog, hblk⟩ := initBlocks_ok_spec importable skip initOutcome bmres.map hinit
  refine ⟨r, ?_, ?_⟩
  · simp [connect, hready, hbase, hbm, hr]
  · intro bid e hm hni
    refine ⟨hlog bid e hm hni, ?_⟩
    intro hbmem
    obtain ⟨e', he', hei'⟩ := hblk bid hbmem
    rw [assoc_key_unique bmres.map hnd bid e e' hm he'] at hni
    rw [hei'] at hni
    cases hni

/-- Witness for `connect_amended`: a cached block map containing one
block of the unimplemented type `Mystery`; `connect` succeeds, logging
the block and leaving the catalog without it. -/
theorem connect_amended_witness :
    ∃ r, connect true true
        (some (some ⟨pys ("host"), [pys ("device")],
          [(pys ("Unknown1"), ⟨pys ("Mystery"), none⟩)], pys ("1.0")⟩))
        (pys ("host")) [pys ("device")] (pys ("1.0"))
        (fun _ => { rtype := .CMD_OK }) (fun _ => false) [] (fun _ _ => .ok ())
        = .ok r ∧
      (pys ("Unknown1"), pys ("Mystery")) ∈ r.unsupportedLogged ∧
      pys ("Unknown1") ∉ r.blocks := by
  obtain ⟨r, hok, hall⟩ := connect_amended true true
    (some (some ⟨pys ("host"), [pys ("device")],
      [(pys ("Unknown1"), ⟨pys ("Mystery"), none⟩)], pys ("1.0")⟩))
    (pys ("host")) [pys ("device")] (pys ("1.0"))
    (fun _ => { rtype := .CMD_OK }) (fun _ => false) []
    (fun _ _ => .ok ())
    ⟨[(pys ("Unknown1"), ⟨pys ("Mystery"), none⟩)], true, false⟩
    rfl rfl rfl (by simp) (by intro bid e hm himp hsk; cases himp)
  exact ⟨r, hok, (hall (pys ("Unknown1")) ⟨pys ("Mystery"), none⟩ (by simp) rfl).1,
    (hall (pys ("Unknown1")) ⟨pys ("Mystery"), none⟩ (by simp) rfl).2⟩

/-! ## C9 — SourceSelector stereo halving and source selection -/

/-- C9: a `SourceSelector` reporting stereoEnable=true, numInputs=6,
numOutputs=2 ends attribute query with num_input=3 and num_output=1; and
a `sourceSelection` publish carrying the integer v sets selected_source
to v and marks exactly the source whose (decimal-string) index equals v
as selected — in particular, for v=0 no source is selected. -/
theorem source_selector_stereo_and_selection (d : SelectorDevice)
    (hst : d.stereoEnable = true) (h6 : d.numInputs = 6) (h2 : d.numOutputs = 2)
    (v : Int) (r : TTPResponse)
    (hs : r.subscription_type = pys ("sourceSelection")) (hv : r.value = .vInt v) :
    (SourceSelector.queryAttributes d).num_input = 3 ∧
    (SourceSelector.queryAttributes d).num_output = 1 ∧
    ∃ st', SourceSelector.subscriptionCallback (SourceSelector.queryAttributes d) r
        = .ok st' ∧
      st'.selected_source = v ∧
      (∀ k e, (k, e) ∈ st'.sources → (e.selected = true ↔ k = intChars v)) ∧
      (v = 0 → ∀ k e, (k, e) ∈ st'.sources → e.selected = false) := by
  have hni : (SourceSelector.queryAttributes d).num_input = 3 := by
    simp [SourceSelector.queryAttributes, hst, h6]
  have hno : (SourceSelector.queryAttributes d).num_output = 1 := by
    simp [SourceSelector.queryAttributes, hst, h2]
  have hcb : SourceSelector.subscriptionCallback (SourceSelector.queryAttributes d) r =
      .ok { SourceSelector.queryAttributes d with
        selected_source := v
        sources := (SourceSelector.queryAttributes d).sources.map fun p =>
          (p.1, { p.2 with selected := p.1 = intChars v }) } := by
    simp only [SourceSelector.subscriptionCallback, hs, hv]
    rw [if_neg (by decide), if_neg (by decide), if_pos (by trivial)]
    rfl
  have hkeys : (SourceSelector.queryAttributes d).sources.map Prod.fst
      = [pys ("1"), pys ("2"), pys ("3")] := by
    simp only [SourceSelector.queryAttributes, hst, h6, if_pos]
    rfl
  refine ⟨hni, hno, _, hcb, rfl, ?_, ?_⟩
  · intro k e hke
    obtain ⟨⟨k0, e0⟩, hmem, heq⟩ := List.mem_map.mp hke
    injection heq with hk he
    subst hk
    subst he
    simp
  · intro hv0 k e hke
    obtain ⟨⟨k0, e0⟩, hmem, heq⟩ := List.mem_map.mp hke
    injection heq with hk he
    subst hk
    subst he
    have hk0 : k0 ∈ (SourceSelector.queryAttributes d).sources.map Prod.fst :=
      List.mem_map.mpr ⟨(k0, e0), hmem, rfl⟩
    rw [hkeys] at hk0
    subst hv0
    simp only [List.mem_cons, List.not_mem_nil, or_false] at hk0
    rcases hk0 with h | h | h <;> subst h <;> rfl

/-- Witness for `source_selector_stereo_and_selection`: a concrete stereo
6-in 2-out selector receiving `sourceSelection = 2` ends with source 2
selected and the others unselected. -/
theorem source_selector_stereo_and_selection_witness :
    (SourceSelector.queryAttributes
      ⟨true, 6, 2, false, fun _ => .vNone, fun _ => .vNone, fun _ => .vNone,
        .vNone, .vNone⟩).num_input = 3 ∧
    ∃ st', SourceSelector.subscriptionCallback
        (SourceSelector.queryAttributes
          ⟨true, 6, 2, false, fun _ => .vNone, fun _ => .vNone, fun _ => .vNone,
            .vNone, .vNone⟩)
        { rtype := .SUBSCRIPTION, value := .vInt 2, publish_token := pys ("ss1"),
          subscription_type := pys ("sourceSelection") } = .ok st' ∧
      st'.selected_source = 2 ∧
      ∀ k e, (k, e) ∈ st'.sources → (e.selected = true ↔ k = pys ("2")) := by
  obtain ⟨h1, -, st', hcb, hsel, hiff, -⟩ := source_selector_stereo_and_selection
    ⟨true, 6, 2, false, fun _ => .vNone, fun _ => .vNone, fun _ => .vNone,
      .vNone, .vNone⟩ rfl rfl rfl 2
    { rtype := .SUBSCRIPTION, value := .vInt 2, publish_token := pys ("ss1"),
      subscription_type := pys ("sourceSelection") } rfl rfl
  exact ⟨h1, st', hcb, hsel, fun k e hke => (by simpa using hiff k e hke)⟩

/-! ## C10 — `Channel` property setters -/

/-- C10, evaluated at the failing input: the `min_level` (and
`max_level`) setter guards on the stored `level`, not on the attribute it
sets — its own assertion message says `unsupported attribute min_level`.
On a channel whose stored `min_level` is None but whose `level` is set,
assigning `min_level` does not raise the claimed assertion error: it
succeeds, leaves every stored value unchanged (the getter still returns
None), and invokes the parent-block callback with
("min_level", index, value).  The setters of `muted` and `level` do
behave as claimed: unchanged state plus callback when the stored value is
present, assertion error when it is None. -/
theorem channel_min_level_none_no_assert :
    Channel.setMinLevel
        { block_id := pys ("MixerA"), index := 1, level := some (pys ("0.0")) }
        (pys ("1.0"))
      = .ok ({ block_id := pys ("MixerA"), index := 1, level := some (pys ("0.0")) },
          ⟨pys ("min_level"), 1, .pfloat (pys ("1.0"))⟩) ∧
    ({ block_id := pys ("MixerA"), index := 1,
        level := some (pys ("0.0")) } : Channel).min_level = none ∧
    Channel.setMuted
        { block_id := pys ("MixerA"), index := 1, level := some (pys ("0.0")) } true
      = .error (pys ("unsupported attribute muted")) ∧
    Channel.setLevel
        { block_id := pys ("MixerA"), index := 1, muted := some false } (pys ("2.0"))
      = .error (pys ("unsupported attribute level")) ∧
    Channel.setLevel
        { block_id := pys ("MixerA"), index := 1, level := some (pys ("0.0")) }
        (pys ("2.0"))
      = .ok ({ block_id := pys ("MixerA"), index := 1, level := some (pys ("0.0")) },
          ⟨pys ("level"), 1, .pfloat (pys ("2.0"))⟩) := by
  refine ⟨rfl, rfl, rfl, rfl, rfl⟩

end Pytesira
